import Mathlib

/-!
Shallow embedding of the user-management service (Express routes over a
Mongo-like record store and a Redis-like cache) and proofs about its
cache-consistency, uniqueness-checking and serialization behaviour.

The embedding models:
  * the Mongoose `User` schema (`src/models/User.js`): field set, the
    schema-level `trim`/`lowercase` transformation of `emailAddress`, the
    `trim` of `userName`, and the three unique indexes;
  * the five `/users` routes of the router file: list (`GET /`), create
    (`POST /`), get-by-account (`GET /account/:accountNumber`),
    get-by-identity (`GET /identity/:identityNumber`) and update
    (`PUT /:id`);
  * the Redis client as an association list of key/value/TTL entries, with
    `SET`/`SETEX`/`DEL`/`KEYS 'users:list:*'` operations that can each fail
    (a failing operation raises, which each route's try/catch turns into a
    500 response);
  * response bodies as a small JSON AST, so that claims about which fields a
    response carries (in particular `password`) are about the serialized
    payload, not about a Lean record type.

Numbers are `Int`/`Nat`; `parseInt` is modelled on decimal and hex literal
prefixes with leading whitespace and sign, returning `none` for NaN.
Timestamps are not modelled: `sort({createdAt: -1})` on a store that only
grows by insertion is the reverse of insertion order.
-/

/-! ## JS string primitives: trim and toLowerCase (ASCII fragment) -/

/-- Model of JS `String.prototype.trim` on the character list: drop leading
and trailing whitespace. -/
def jsTrim (cs : List Char) : List Char :=
  ((cs.dropWhile Char.isWhitespace).reverse.dropWhile Char.isWhitespace).reverse

/-- JS `trim` on `String` (the Mongoose `trim: true` setter). -/
def jsTrimStr (s : String) : String :=
  ⟨jsTrim s.data⟩

/-- JS `toLowerCase` on `String` (ASCII fragment; the Mongoose
`lowercase: true` setter). -/
def jsToLowerStr (s : String) : String :=
  ⟨s.data.map Char.toLower⟩

/-- The schema-level transformation of `emailAddress` in `User.js`
(`trim: true, lowercase: true`): the value persisted for a submitted email. -/
def normalizeEmail (s : String) : String :=
  jsToLowerStr (jsTrimStr s)

/-! ## JS parseInt -/

/-- Value of a decimal digit, `none` for a non-digit. -/
def decVal (c : Char) : Option Nat :=
  if 48 ≤ c.toNat ∧ c.toNat ≤ 57 then some (c.toNat - 48) else none

/-- Value of a hexadecimal digit, `none` for a non-digit. -/
def hexVal (c : Char) : Option Nat :=
  if 48 ≤ c.toNat ∧ c.toNat ≤ 57 then some (c.toNat - 48)
  else if 97 ≤ c.toNat ∧ c.toNat ≤ 102 then some (c.toNat - 87)
  else if 65 ≤ c.toNat ∧ c.toNat ≤ 70 then some (c.toNat - 55)
  else none

/-- Accumulate the value of the longest digit prefix. -/
def digitsAcc (f : Char → Option Nat) (base : Nat) : List Char → Nat → Nat
  | [], acc => acc
  | c :: cs, acc =>
    match f c with
    | some d => digitsAcc f base cs (acc * base + d)
    | none => acc

/-- The longest digit prefix as a number; `none` when there is no digit
(JS `parseInt` yields NaN then). -/
def parseDigits (f : Char → Option Nat) (base : Nat) (cs : List Char) : Option Nat :=
  match cs with
  | [] => none
  | c :: _ =>
    match f c with
    | none => none
    | some _ => some (digitsAcc f base cs 0)

/-- Magnitude part of `parseInt` without radix: a `0x`/`0X` prefix selects
hexadecimal, otherwise decimal. -/
def parseNatPrefix (cs : List Char) : Option Nat :=
  match cs with
  | '0' :: 'x' :: rest => parseDigits hexVal 16 rest
  | '0' :: 'X' :: rest => parseDigits hexVal 16 rest
  | _ => parseDigits decVal 10 cs

/-- JS `parseInt(s)`: skip leading whitespace, optional sign, longest digit
prefix; `none` models NaN. -/
def jsParseIntCore (cs : List Char) : Option Int :=
  match cs.dropWhile Char.isWhitespace with
  | '-' :: rest => (parseNatPrefix rest).map (fun n => -(n : Int))
  | '+' :: rest => (parseNatPrefix rest).map (fun n => (n : Int))
  | rest => (parseNatPrefix rest).map (fun n => (n : Int))

/-- `parseInt` applied to an optional query parameter (`parseInt(undefined)`
is NaN). -/
def jsParseInt (q : Option String) : Option Int :=
  match q with
  | none => none
  | some s => jsParseIntCore s.data

/-- The JS idiom `parseInt(x) || d`: NaN and 0 are falsy and fall back to
the default. -/
def jsOrDefault (v : Option Int) (d : Int) : Int :=
  match v with
  | none => d
  | some n => if n = 0 then d else n

/-- Line `const page = parseInt(req.query.page) || 1`. -/
def pageOf (q : Option String) : Int :=
  jsOrDefault (jsParseInt q) 1

/-- Line `const limit = parseInt(req.query.limit) || 10`. -/
def limitOf (q : Option String) : Int :=
  jsOrDefault (jsParseInt q) 10

/-- Line `const paginate = parseInt(req.query.paginate) !== 0`. -/
def paginateOf (q : Option String) : Bool :=
  jsParseInt q != some 0

/-! ## JSON values (response bodies and cached payloads) -/

/-- JSON AST for serialized response bodies and cache entries. `JSON.parse`
after `JSON.stringify` is the identity on it, so the cache holds `Json`
values directly. -/
inductive Json where
  | str : String → Json
  | num : Int → Json
  | obj : List (String × Json) → Json
  | arr : List Json → Json
deriving Repr

mutual

def jsonDecEq : (a b : Json) → Decidable (a = b)
  | .str x, .str y =>
    if h : x = y then isTrue (by rw [h]) else isFalse (fun he => h (Json.str.inj he))
  | .num x, .num y =>
    if h : x = y then isTrue (by rw [h]) else isFalse (fun he => h (Json.num.inj he))
  | .obj fs, .obj gs =>
    match jsonDecEqFields fs gs with
    | isTrue h => isTrue (by rw [h])
    | isFalse h => isFalse (fun he => h (Json.obj.inj he))
  | .arr xs, .arr ys =>
    match jsonDecEqArr xs ys with
    | isTrue h => isTrue (by rw [h])
    | isFalse h => isFalse (fun he => h (Json.arr.inj he))
  | .str _, .num _ => isFalse (fun he => Json.noConfusion he)
  | .str _, .obj _ => isFalse (fun he => Json.noConfusion he)
  | .str _, .arr _ => isFalse (fun he => Json.noConfusion he)
  | .num _, .str _ => isFalse (fun he => Json.noConfusion he)
  | .num _, .obj _ => isFalse (fun he => Json.noConfusion he)
  | .num _, .arr _ => isFalse (fun he => Json.noConfusion he)
  | .obj _, .str _ => isFalse (fun he => Json.noConfusion he)
  | .obj _, .num _ => isFalse (fun he => Json.noConfusion he)
  | .obj _, .arr _ => isFalse (fun he => Json.noConfusion he)
  | .arr _, .str _ => isFalse (fun he => Json.noConfusion he)
  | .arr _, .num _ => isFalse (fun he => Json.noConfusion he)
  | .arr _, .obj _ => isFalse (fun he => Json.noConfusion he)

def jsonDecEqFields : (a b : List (String × Json)) → Decidable (a = b)
  | [], [] => isTrue rfl
  | [], _ :: _ => isFalse (fun he => List.noConfusion he)
  | _ :: _, [] => isFalse (fun he => List.noConfusion he)
  | (n, v) :: fs, (m, w) :: gs =>
    if h : n = m then
      match jsonDecEq v w with
      | isTrue h2 =>
        match jsonDecEqFields fs gs with
        | isTrue h3 => isTrue (by rw [h, h2, h3])
        | isFalse h3 => isFalse (by intro he; injection he with _ hb; exact h3 hb)
      | isFalse h2 => isFalse (by
          intro he; injection he with ha _; exact h2 (congrArg Prod.snd ha))
    else isFalse (by
      intro he; injection he with ha _; exact h (congrArg Prod.fst ha))

def jsonDecEqArr : (a b : List Json) → Decidable (a = b)
  | [], [] => isTrue rfl
  | [], _ :: _ => isFalse (fun he => List.noConfusion he)
  | _ :: _, [] => isFalse (fun he => List.noConfusion he)
  | x :: xs, y :: ys =>
    match jsonDecEq x y with
    | isTrue h2 =>
      match jsonDecEqArr xs ys with
      | isTrue h3 => isTrue (by rw [h2, h3])
      | isFalse h3 => isFalse (by intro he; injection he with _ hb; exact h3 hb)
    | isFalse h2 => isFalse (by intro he; injection he with ha _; exact h2 ha)

end

instance : DecidableEq Json := jsonDecEq

mutual

/-- Whether a serialized value contains a field named `k` anywhere
(top level or nested). -/
def Json.mentionsKey (k : String) : Json → Bool
  | .str _ => false
  | .num _ => false
  | .obj fs => Json.mentionsKeyFields k fs
  | .arr es => Json.mentionsKeyArr k es

def Json.mentionsKeyFields (k : String) : List (String × Json) → Bool
  | [] => false
  | (n, v) :: fs => n == k || Json.mentionsKey k v || Json.mentionsKeyFields k fs

def Json.mentionsKeyArr (k : String) : List Json → Bool
  | [] => false
  | e :: es => Json.mentionsKey k e || Json.mentionsKeyArr k es

end

/-- Body `{message: m}`. -/
def msgJson (m : String) : Json :=
  Json.obj [("message", Json.str m)]

/-! ## The User record and its serializations -/

/-- A persisted user record. `id` is the system-generated `_id`;
`password` holds the bcrypt hash. Timestamps are not modelled. -/
structure User where
  id : String
  userName : String
  accountNumber : String
  emailAddress : String
  identityNumber : String
  password : String
deriving Repr, DecidableEq

/-- Serialization of a record fetched with `.select('-password')`, or of the
create route's `userCache` (`toObject()` with `password` deleted). -/
def publicUserJson (u : User) : Json :=
  Json.obj [("_id", Json.str u.id),
            ("userName", Json.str u.userName),
            ("accountNumber", Json.str u.accountNumber),
            ("emailAddress", Json.str u.emailAddress),
            ("identityNumber", Json.str u.identityNumber)]

/-- Serialization of a full record (no field excluded): what
`res.json(updatedUser)` sends on the update path, `password` included. -/
def fullUserJson (u : User) : Json :=
  Json.obj [("_id", Json.str u.id),
            ("userName", Json.str u.userName),
            ("accountNumber", Json.str u.accountNumber),
            ("emailAddress", Json.str u.emailAddress),
            ("identityNumber", Json.str u.identityNumber),
            ("password", Json.str u.password)]

/-! ## The record store -/

/-- The persistent collection, in insertion (`createdAt` ascending) order. -/
abbrev Store := List User

/-- `User.findOne({accountNumber})`. -/
def findByAccount (s : Store) (a : String) : Option User :=
  s.find? (fun u => u.accountNumber == a)

/-- `User.findOne({identityNumber})`. -/
def findByIdentity (s : Store) (i : String) : Option User :=
  s.find? (fun u => u.identityNumber == i)

/-- `User.findById(id)`. -/
def findById (s : Store) (i : String) : Option User :=
  s.find? (fun u => u.id == i)

/-- Whether inserting `u` violates one of the three unique indexes of the
schema (`accountNumber`, `emailAddress`, `identityNumber`). -/
def isDup (s : Store) (u : User) : Bool :=
  s.any (fun r =>
    r.accountNumber == u.accountNumber
      || r.emailAddress == u.emailAddress
      || r.identityNumber == u.identityNumber)

/-- `user.save()`: appended on success, E11000 duplicate-key error when a
unique index is violated. -/
def saveUser (s : Store) (u : User) : Except Unit Store :=
  if isDup s u then Except.error () else Except.ok (s ++ [u])

/-- Document construction `new User({...})` with the schema setters applied:
`userName` trimmed, `emailAddress` trimmed and lower-cased. -/
def mkUser (id userName accountNumber emailAddress identityNumber password : String) : User :=
  { id := id,
    userName := jsTrimStr userName,
    accountNumber := accountNumber,
    emailAddress := normalizeEmail emailAddress,
    identityNumber := identityNumber,
    password := password }

/-! ## The cache layer -/

/-- One Redis entry: the stored JSON payload and its TTL (`none` when set
with `SET`, `some 300` when set with `setEx(·, 300, ·)`). -/
structure CacheEntry where
  value : Json
  ttl : Option Nat
deriving Repr, DecidableEq

/-- The cache keyspace as an association list (first binding wins). -/
abbrev Cache := List (String × CacheEntry)

/-- `GET key`. -/
def cacheLookup (c : Cache) (k : String) : Option CacheEntry :=
  match c with
  | [] => none
  | (k2, e) :: rest => if k2 = k then some e else cacheLookup rest k

/-- Remove every binding of a key (`DEL key`). -/
def cacheErase (c : Cache) (k : String) : Cache :=
  match c with
  | [] => []
  | (k2, e) :: rest =>
    if k2 = k then cacheErase rest k else (k2, e) :: cacheErase rest k

/-- `SET key value` (no TTL, overwrites). -/
def cacheSet (c : Cache) (k : String) (v : Json) : Cache :=
  (k, ⟨v, none⟩) :: cacheErase c k

/-- `SETEX key ttl value`. -/
def cacheSetEx (c : Cache) (k : String) (ttl : Nat) (v : Json) : Cache :=
  (k, ⟨v, some ttl⟩) :: cacheErase c k

/-- Whether `p` is a prefix of `s` (the glob `p ++ "*"` matches `s`). -/
def strHasPrefix (p s : String) : Bool :=
  p.data.isPrefixOf s.data

/-- `KEYS 'users:list:*'`: every key the list-cache glob matches. -/
def listCacheKeys (c : Cache) : List String :=
  (c.filter (fun e => strHasPrefix "users:list:" e.1)).map (fun e => e.1)

/-- `DEL k1 k2 ...` over a key list. -/
def cacheDelAll (c : Cache) (ks : List String) : Cache :=
  c.filter (fun e => !(ks.contains e.1))

/-! ## Fallible cache client

Each Redis call is awaited inside the route's try/catch: a rejected promise
raises and the catch block answers 500. `Outage` says which operation kinds
currently fail (a disconnected client fails all of them). -/

structure Outage where
  getFails : Bool
  setFails : Bool
  delFails : Bool
  keysFails : Bool
deriving Repr, DecidableEq

/-- The healthy client: no cache operation fails. -/
def noOutage : Outage :=
  ⟨false, false, false, false⟩

def cGet (o : Outage) (c : Cache) (k : String) : Except Unit (Option CacheEntry) :=
  if o.getFails then Except.error () else Except.ok (cacheLookup c k)

def cSet (o : Outage) (c : Cache) (k : String) (v : Json) : Except Unit Cache :=
  if o.setFails then Except.error () else Except.ok (cacheSet c k v)

def cSetEx (o : Outage) (c : Cache) (k : String) (ttl : Nat) (v : Json) : Except Unit Cache :=
  if o.setFails then Except.error () else Except.ok (cacheSetEx c k ttl v)

def cDel (o : Outage) (c : Cache) (k : String) : Except Unit Cache :=
  if o.delFails then Except.error () else Except.ok (cacheErase c k)

def cKeysList (o : Outage) (c : Cache) : Except Unit (List String) :=
  if o.keysFails then Except.error () else Except.ok (listCacheKeys c)

def cDelMany (o : Outage) (c : Cache) (ks : List String) : Except Unit Cache :=
  if o.delFails then Except.error () else Except.ok (cacheDelAll c ks)

/-! ## Responses -/

/-- An HTTP response: status plus serialized JSON body. -/
inductive Response where
  | ok : Json → Response
  | created : Json → Response
  | badRequest : Json → Response
  | notFound : Json → Response
  | serverError : Json → Response
deriving Repr, DecidableEq

/-- The serialized body of a response. -/
def Response.body : Response → Json
  | .ok j => j
  | .created j => j
  | .badRequest j => j
  | .notFound j => j
  | .serverError j => j

/-- Whether the response is a 200. -/
def Response.is200 : Response → Bool
  | .ok _ => true
  | _ => false

/-! ## Route handlers -/

/-- Cache keys used by the routes. `accountKey` and `identityKey` are the
two point-cache slots of the data model; `allKey` and `listKey` the
list-cache slots. -/
def accountKey (accountNumber : String) : String :=
  "user:" ++ accountNumber

def identityKey (identityNumber : String) : String :=
  "user:identity:" ++ identityNumber

def allKey : String :=
  "users:list:all"

def listKey (page limit : Int) : String :=
  "users:list:" ++ toString page ++ ":" ++ toString limit

/-- `Math.ceil(total / limit)` as the list route computes `totalPages`.
The `limit = 0` branch is unreachable from the route (`limitOf` is never 0)
and is given an arbitrary value. -/
def ceilDivJs (total : Nat) (limit : Int) : Int :=
  if 0 < limit then ((total + limit.toNat - 1) / limit.toNat : Nat)
  else if limit < 0 then -((total / limit.natAbs : Nat) : Int)
  else 0

/-- Body `{users}` of the unpaginated list response. -/
def usersPayload (us : List User) : Json :=
  Json.obj [("users", Json.arr (us.map publicUserJson))]

/-- Body `{users, pagination}` of the paginated list response. -/
def pagedPayload (us : List User) (page totalPages : Int) (total : Nat) (limit : Int) : Json :=
  Json.obj [("users", Json.arr (us.map publicUserJson)),
            ("pagination",
              Json.obj [("currentPage", Json.num page),
                        ("totalPages", Json.num totalPages),
                        ("totalItems", Json.num total),
                        ("itemsPerPage", Json.num limit)])]

/-- Body `{message: 'Server error'}`. -/
def serverErrorJson : Json :=
  msgJson "Server error"

/-- Body `{message: 'Server error', error: error.message}` of the update
route's catch block; the underlying exception text is not modelled. -/
def updateErrorJson : Json :=
  Json.obj [("message", Json.str "Server error"), ("error", Json.str "")]

/-- `User.find().select('-password').skip(skip).limit(limit).sort({createdAt: -1})`
on the store, in creation-descending order: MongoDB rejects a negative skip
(the query fails and the route's catch answers 500); a negative limit
returns a single batch of at most `|limit|` documents; limit 0 means no
limit (unreachable from the route, whose limit is never 0). -/
def findPage (store : Store) (skip limit : Int) : Except Unit (List User) :=
  if skip < 0 then Except.error ()
  else if limit = 0 then Except.ok (store.reverse.drop skip.toNat)
  else Except.ok ((store.reverse.drop skip.toNat).take limit.natAbs)

/-- `GET /users` (router.get('/')): paginate flag, read-through list cache,
page slice (`findPage`) plus count on the paginated path, 300-second TTL on
both cache writes. Returns the response and the cache afterwards. -/
def listUsers (o : Outage) (store : Store) (cache : Cache)
    (qpage qlimit qpaginate : Option String) : Response × Cache :=
  if paginateOf qpaginate = false then
    match cGet o cache allKey with
    | Except.error _ => (Response.serverError serverErrorJson, cache)
    | Except.ok (some e) => (Response.ok e.value, cache)
    | Except.ok none =>
      match cSetEx o cache allKey 300 (usersPayload store.reverse) with
      | Except.error _ => (Response.serverError serverErrorJson, cache)
      | Except.ok c2 => (Response.ok (usersPayload store.reverse), c2)
  else
    match cGet o cache (listKey (pageOf qpage) (limitOf qlimit)) with
    | Except.error _ => (Response.serverError serverErrorJson, cache)
    | Except.ok (some e) => (Response.ok e.value, cache)
    | Except.ok none =>
      match findPage store ((pageOf qpage - 1) * limitOf qlimit) (limitOf qlimit) with
      | Except.error _ => (Response.serverError serverErrorJson, cache)
      | Except.ok users =>
        match cSetEx o cache (listKey (pageOf qpage) (limitOf qlimit)) 300
            (pagedPayload users
              (pageOf qpage) (ceilDivJs store.length (limitOf qlimit))
              store.length (limitOf qlimit)) with
        | Except.error _ => (Response.serverError serverErrorJson, cache)
        | Except.ok c2 =>
          (Response.ok
            (pagedPayload users
              (pageOf qpage) (ceilDivJs store.length (limitOf qlimit))
              store.length (limitOf qlimit)), c2)

/-- `POST /users` (router.post('/')): hash, save, populate the two point
caches with the password-stripped record (no TTL), then scan and delete
every `users:list:*` key; 201 confirmation message on success, 400 on a
duplicate-key error. Returns response, store and cache afterwards. -/
def createUser (hash : String → String) (newId : String) (o : Outage)
    (store : Store) (cache : Cache)
    (userName accountNumber emailAddress identityNumber password : String) :
    Response × Store × Cache :=
  match saveUser store (mkUser newId userName accountNumber emailAddress
      identityNumber (hash password)) with
  | Except.error _ => (Response.badRequest (msgJson "Duplicate entry found"), store, cache)
  | Except.ok store2 =>
    match cSet o cache (accountKey accountNumber)
        (publicUserJson (mkUser newId userName accountNumber emailAddress
          identityNumber (hash password))) with
    | Except.error _ => (Response.serverError serverErrorJson, store2, cache)
    | Except.ok c1 =>
      match cSet o c1 (identityKey identityNumber)
          (publicUserJson (mkUser newId userName accountNumber emailAddress
            identityNumber (hash password))) with
      | Except.error _ => (Response.serverError serverErrorJson, store2, c1)
      | Except.ok c2 =>
        match cKeysList o c2 with
        | Except.error _ => (Response.serverError serverErrorJson, store2, c2)
        | Except.ok ks =>
          if 0 < ks.length then
            match cDelMany o c2 ks with
            | Except.error _ => (Response.serverError serverErrorJson, store2, c2)
            | Except.ok c3 =>
              (Response.created (msgJson "User created successfully"), store2, c3)
          else (Response.created (msgJson "User created successfully"), store2, c2)

/-- `GET /users/account/:accountNumber` (router.get('/account/...')):
read-through on the `user:{accountNumber}` slot; a hit is returned verbatim,
a miss is served from the store (password excluded) and cached with no TTL. -/
def getUserByAccount (o : Outage) (store : Store) (cache : Cache)
    (accountNumber : String) : Response × Cache :=
  match cGet o cache (accountKey accountNumber) with
  | Except.error _ => (Response.serverError serverErrorJson, cache)
  | Except.ok (some e) => (Response.ok e.value, cache)
  | Except.ok none =>
    match findByAccount store accountNumber with
    | none => (Response.notFound (msgJson "User not found"), cache)
    | some u =>
      match cSet o cache (accountKey accountNumber) (publicUserJson u) with
      | Except.error _ => (Response.serverError serverErrorJson, cache)
      | Except.ok c2 => (Response.ok (publicUserJson u), c2)

/-- `GET /users/identity/:identityNumber` (router.get('/identity/...')):
read-through on the `user:identity:{identityNumber}` slot. -/
def getUserByIdentity (o : Outage) (store : Store) (cache : Cache)
    (identityNumber : String) : Response × Cache :=
  match cGet o cache (identityKey identityNumber) with
  | Except.error _ => (Response.serverError serverErrorJson, cache)
  | Except.ok (some e) => (Response.ok e.value, cache)
  | Except.ok none =>
    match findByIdentity store identityNumber with
    | none => (Response.notFound (msgJson "User not found"), cache)
    | some u =>
      match cSet o cache (identityKey identityNumber) (publicUserJson u) with
      | Except.error _ => (Response.serverError serverErrorJson, cache)
      | Except.ok c2 => (Response.ok (publicUserJson u), c2)

/-! ## Update route -/

/-- The update request body: any subset of the four updatable fields. -/
structure Updates where
  userName : Option String
  accountNumber : Option String
  emailAddress : Option String
  identityNumber : Option String
deriving Repr, DecidableEq

/-- JS truthiness of `updates.field`: present and not the empty string. -/
def truthy : Option String → Bool
  | none => false
  | some s => s != ""

/-- One `$or` arm of the uniqueness probe: the arm is present when the
update carries the field (truthy) and matches a record with that exact
stored value. -/
def fieldConflict (v : Option String) (stored : String) : Bool :=
  match v with
  | none => false
  | some s => s != "" && stored == s

/-- `User.findOne({_id: {$ne: userId}, $or: [...]})` of the update route,
as a Bool: is there a different record sharing one of the updated values? -/
def conflictOr (store : Store) (userId : String) (up : Updates) : Bool :=
  store.any (fun r =>
    r.id != userId
      && (fieldConflict up.accountNumber r.accountNumber
          || fieldConflict up.emailAddress r.emailAddress
          || fieldConflict up.identityNumber r.identityNumber))

/-- `$set` of the provided fields with the schema setters applied
(`userName` trimmed, `emailAddress` trimmed and lower-cased). -/
def applyUpdates (u : User) (up : Updates) : User :=
  { u with
    userName := match up.userName with
      | some s => jsTrimStr s
      | none => u.userName,
    accountNumber := up.accountNumber.getD u.accountNumber,
    emailAddress := match up.emailAddress with
      | some s => normalizeEmail s
      | none => u.emailAddress,
    identityNumber := up.identityNumber.getD u.identityNumber }

/-- `findByIdAndUpdate(userId, {$set: updates}, {new: true, ...})` on the
store. -/
def storeUpdate (store : Store) (userId : String) (up : Updates) : Store :=
  store.map (fun r => if r.id == userId then applyUpdates r up else r)

/-- `PUT /users/:id` (router.put('/:id')): 404 when the id is unknown; the
uniqueness probe runs only when one of the three unique fields is truthy in
the body and answers 400 naming all three fields; otherwise the provided
fields are applied and the route deletes the cache keys
`user:{updatedUser.accountNumber}` and `user:{updatedUser.identityNumber}`
(the literal keys of lines 502-503: the second one lacks the `identity:`
segment) and answers 200 with the full updated record, password included. -/
def updateUser (o : Outage) (store : Store) (cache : Cache)
    (userId : String) (up : Updates) : Response × Store × Cache :=
  match findById store userId with
  | none => (Response.notFound (msgJson "User not found"), store, cache)
  | some user =>
    if truthy up.accountNumber || truthy up.emailAddress || truthy up.identityNumber then
      if conflictOr store userId up then
        (Response.badRequest
          (msgJson "Account number, email, or identity number already in use"),
          store, cache)
      else
        match cDel o cache (accountKey (applyUpdates user up).accountNumber) with
        | Except.error _ => (Response.serverError updateErrorJson, storeUpdate store userId up, cache)
        | Except.ok c1 =>
          match cDel o c1 ("user:" ++ (applyUpdates user up).identityNumber) with
          | Except.error _ => (Response.serverError updateErrorJson, storeUpdate store userId up, c1)
          | Except.ok c2 =>
            (Response.ok (fullUserJson (applyUpdates user up)), storeUpdate store userId up, c2)
    else
      match cDel o cache (accountKey (applyUpdates user up).accountNumber) with
      | Except.error _ => (Response.serverError updateErrorJson, storeUpdate store userId up, cache)
      | Except.ok c1 =>
        match cDel o c1 ("user:" ++ (applyUpdates user up).identityNumber) with
        | Except.error _ => (Response.serverError updateErrorJson, storeUpdate store userId up, c1)
        | Except.ok c2 =>
          (Response.ok (fullUserJson (applyUpdates user up)), storeUpdate store userId up, c2)

/-! ## Concrete fixtures for closed evaluations -/

/-- A persisted record used by the closed counterexample and bug-exhibit
theorems. -/
def demoUser : User :=
  ⟨"id1", "Alice", "A1", "alice@x.com", "I1", "hashedpw1"⟩

/-- A record whose `accountNumber` is the string `identity:` followed by its
own `identityNumber`, so its account point-cache key collides with its
identity point-cache key. -/
def collidingUser : User :=
  ⟨"id2", "Eve", "identity:42", "eve@x.com", "42", "hashedpw2"⟩

/-- An update body carrying only a new `userName`. -/
def updOnlyName : Updates :=
  ⟨some "Bob", none, none, none⟩

/-- The cache as the create route would have left it for `demoUser`: both
point slots populated. -/
def demoCache : Cache :=
  [(accountKey "A1", ⟨publicUserJson demoUser, none⟩),
   (identityKey "I1", ⟨publicUserJson demoUser, none⟩)]

/-- An outage in which cache reads fail (for instance a disconnected
client); writes and deletes are not reached on the failing paths used. -/
def getOutage : Outage :=
  ⟨true, false, false, false⟩

/-- `demoCache` together with one list-cache entry, to observe that the
update route leaves `users:list:*` entries untouched. -/
def demoCacheL : Cache :=
  demoCache ++ [(listKey 1 10, ⟨usersPayload [demoUser], some 300⟩)]

/-! ## Helper lemmas -/

theorem charToNatInj {a b : Char} (h : a.toNat = b.toNat) : a = b := by
  apply Char.ext; apply UInt32.ext; exact h

theorem isWhitespace_eq_toNat (d : Char) :
    d.isWhitespace = (d.toNat == 32 || d.toNat == 9 || d.toNat == 13 || d.toNat == 10) := by
  simp only [Char.isWhitespace]
  by_cases h32 : d.toNat = 32
  · have : d = ' ' := charToNatInj h32
    subst this; rfl
  · by_cases h9 : d.toNat = 9
    · have : d = '\t' := charToNatInj h9
      subst this; rfl
    · by_cases h13 : d.toNat = 13
      · have : d = '\x0d' := charToNatInj h13
        subst this; rfl
      · by_cases h10 : d.toNat = 10
        · have : d = '\n' := charToNatInj h10
          subst this; rfl
        · have e32 : (d = ' ') = False := by
            simp only [eq_iff_iff, iff_false]; intro h; subst h; exact h32 rfl
          have e9 : (d = '\t') = False := by
            simp only [eq_iff_iff, iff_false]; intro h; subst h; exact h9 rfl
          have e13 : (d = '\x0d') = False := by
            simp only [eq_iff_iff, iff_false]; intro h; subst h; exact h13 rfl
          have e10 : (d = '\n') = False := by
            simp only [eq_iff_iff, iff_false]; intro h; subst h; exact h10 rfl
          simp [e32, e9, e13, e10, h32, h9, h13, h10]

theorem charToNat_ofNat_small (n : Nat) (h : n < 55296) : (Char.ofNat n).toNat = n := by
  have hv : n.isValidChar := Or.inl h
  simp only [Char.ofNat, dif_pos hv, Char.ofNatAux, Char.toNat]
  exact BitVec.toNat_ofNatLt _ _

/-- ASCII lower-casing maps whitespace to whitespace and non-whitespace to
non-whitespace. -/
theorem toLower_isWhitespace (c : Char) :
    (Char.toLower c).isWhitespace = c.isWhitespace := by
  unfold Char.toLower
  by_cases h : c.toNat ≥ 65 ∧ c.toNat ≤ 90
  · have ht : (Char.ofNat (c.toNat + 32)).toNat = c.toNat + 32 :=
      charToNat_ofNat_small _ (by omega)
    simp only [if_pos h, isWhitespace_eq_toNat, ht]
    rw [Bool.eq_iff_iff]
    simp only [Bool.or_eq_true, beq_iff_eq]
    omega
  · simp [h]

/-- Trimming commutes with lower-casing. -/
theorem jsTrim_map_toLower (l : List Char) :
    jsTrim (l.map Char.toLower) = (jsTrim l).map Char.toLower := by
  have hw : (Char.isWhitespace ∘ Char.toLower) = Char.isWhitespace :=
    funext toLower_isWhitespace
  simp only [jsTrim, ← List.map_reverse, List.dropWhile_map, hw]

/-- Two submitted emails with the same lower-casing normalize to the same
persisted email. -/
theorem normalizeEmail_of_toLower_eq {e1 e2 : String}
    (h : jsToLowerStr e1 = jsToLowerStr e2) : normalizeEmail e1 = normalizeEmail e2 := by
  have hd : e1.data.map Char.toLower = e2.data.map Char.toLower := by
    have := congrArg String.data h
    simpa [jsToLowerStr] using this
  show jsToLowerStr (jsTrimStr e1) = jsToLowerStr (jsTrimStr e2)
  simp only [jsToLowerStr, jsTrimStr]
  rw [show (jsTrim e1.data).map Char.toLower = jsTrim (e1.data.map Char.toLower) from
        (jsTrim_map_toLower e1.data).symm,
      show (jsTrim e2.data).map Char.toLower = jsTrim (e2.data.map Char.toLower) from
        (jsTrim_map_toLower e2.data).symm,
      hd]

theorem cacheLookup_erase (c : Cache) (k k2 : String) :
    cacheLookup (cacheErase c k) k2 = if k2 = k then none else cacheLookup c k2 := by
  induction c with
  | nil => simp [cacheErase, cacheLookup]
  | cons e rest ih =>
    obtain ⟨k3, v⟩ := e
    by_cases h3 : k3 = k
    · subst h3
      by_cases h2 : k2 = k3
      · subst h2; simp [cacheErase, ih]
      · simp [cacheErase, cacheLookup, ih, h2, Ne.symm h2]
    · by_cases h2 : k3 = k2
      · subst h2
        simp [cacheErase, cacheLookup, h3, Ne.symm h3]
      · simp [cacheErase, cacheLookup, h3, h2, ih]

theorem cacheLookup_set (c : Cache) (k k2 : String) (v : Json) :
    cacheLookup (cacheSet c k v) k2
      = if k2 = k then some ⟨v, none⟩ else cacheLookup c k2 := by
  by_cases h : k2 = k
  · subst h; simp [cacheSet, cacheLookup]
  · simp [cacheSet, cacheLookup, Ne.symm h, cacheLookup_erase, h]

theorem cacheLookup_setEx (c : Cache) (k k2 : String) (ttl : Nat) (v : Json) :
    cacheLookup (cacheSetEx c k ttl v) k2
      = if k2 = k then some ⟨v, some ttl⟩ else cacheLookup c k2 := by
  by_cases h : k2 = k
  · subst h; simp [cacheSetEx, cacheLookup]
  · simp [cacheSetEx, cacheLookup, Ne.symm h, cacheLookup_erase, h]

theorem cacheLookup_delAll (c : Cache) (ks : List String) (k : String) :
    cacheLookup (cacheDelAll c ks) k
      = if ks.contains k then none else cacheLookup c k := by
  induction c with
  | nil => simp [cacheDelAll, cacheLookup]
  | cons e rest ih =>
    obtain ⟨k3, v⟩ := e
    by_cases hm : k3 ∈ ks
    · by_cases h3 : k3 = k
      · subst h3
        simp [cacheDelAll, List.filter_cons, cacheLookup, hm] at ih ⊢
        simp [ih, hm]
      · simp [cacheDelAll, List.filter_cons, cacheLookup, hm, h3] at ih ⊢
        exact ih
    · by_cases h3 : k3 = k
      · subst h3
        simp [cacheDelAll, List.filter_cons, cacheLookup, hm] at ih ⊢
      · simp [cacheDelAll, List.filter_cons, cacheLookup, hm, h3] at ih ⊢
        exact ih

/-- A point-cache key `user:...` is never matched by the `users:list:*`
glob (the fifth character differs). -/
theorem notListPrefix_userKey (s : String) :
    strHasPrefix "users:list:" ("user:" ++ s) = false := by
  show ("users:list:".data.isPrefixOf ("user:" ++ s).data) = false
  have hd : ("user:" ++ s).data = 'u' :: 's' :: 'e' :: 'r' :: ':' :: s.data := by
    simp [String.data_append]
  rw [hd]
  simp [List.isPrefixOf]

/-- Every key `KEYS 'users:list:*'` returns is matched by the glob. -/
theorem listCacheKeys_hasPrefix (c : Cache) (k : String) (h : k ∈ listCacheKeys c) :
    strHasPrefix "users:list:" k = true := by
  simp only [listCacheKeys, List.mem_map] at h
  obtain ⟨e, he, hk⟩ := h
  have := List.of_mem_filter he
  rw [← hk]
  exact this

/-- Deleting everything `KEYS 'users:list:*'` returned leaves no key the
glob matches. -/
theorem listCacheKeys_delAll_self (c : Cache) :
    listCacheKeys (cacheDelAll c (listCacheKeys c)) = [] := by
  simp only [listCacheKeys, cacheDelAll, List.filter_filter]
  rw [List.map_eq_nil_iff, List.filter_eq_nil_iff]
  intro e he
  by_cases hp : strHasPrefix "users:list:" e.1
  · have hmem : e.1 ∈ (c.filter (fun x => strHasPrefix "users:list:" x.1)).map
        (fun x => x.1) :=
      List.mem_map_of_mem _ (List.mem_filter.mpr ⟨he, hp⟩)
    simp [hp, hmem]
  · simp [hp]

/-- A key the glob does not match survives the list-cache invalidation. -/
theorem cacheLookup_delAll_listKeys (c c2 : Cache) (k : String)
    (h : strHasPrefix "users:list:" k = false) :
    cacheLookup (cacheDelAll c (listCacheKeys c2)) k = cacheLookup c k := by
  rw [cacheLookup_delAll]
  have hnm : ¬ k ∈ listCacheKeys c2 := by
    intro hm
    rw [listCacheKeys_hasPrefix c2 k hm] at h
    exact Bool.noConfusion h
  simp [hnm]

/-- `findOne({accountNumber})` misses on a store from which every record
with that account number was removed. -/
theorem findByAccount_filter_ne (store : Store) (a : String) :
    findByAccount (store.filter (fun r => r.accountNumber != a)) a = none := by
  induction store with
  | nil => rfl
  | cons u rest ih =>
    by_cases h : u.accountNumber = a
    · simpa [List.filter_cons, h] using ih
    · simp only [List.filter_cons]
      rw [if_pos (by simp [h])]
      unfold findByAccount
      rw [List.find?_cons_of_neg _ (by simp [h])]
      exact ih

/-- `findOne({identityNumber})` misses on a store from which every record
with that identity number was removed. -/
theorem findByIdentity_filter_ne (store : Store) (i : String) :
    findByIdentity (store.filter (fun r => r.identityNumber != i)) i = none := by
  induction store with
  | nil => rfl
  | cons u rest ih =>
    by_cases h : u.identityNumber = i
    · simpa [List.filter_cons, h] using ih
    · simp only [List.filter_cons]
      rw [if_pos (by simp [h])]
      unfold findByIdentity
      rw [List.find?_cons_of_neg _ (by simp [h])]
      exact ih

theorem cacheDelAll_nil (c : Cache) : cacheDelAll c [] = c := by
  simp [cacheDelAll]

/-- The identity point-cache key is never matched by the `users:list:*`
glob either. -/
theorem notListPrefix_identityKey (s : String) :
    strHasPrefix "users:list:" (identityKey s) = false := by
  show ("users:list:".data.isPrefixOf ("user:identity:" ++ s).data) = false
  have hd : ("user:identity:" ++ s).data
      = 'u' :: 's' :: 'e' :: 'r' :: ':' :: 'i' :: 'd' :: 'e' :: 'n' :: 't'
          :: 'i' :: 't' :: 'y' :: ':' :: s.data := by
    simp [String.data_append]
  rw [hd]
  simp [List.isPrefixOf]

theorem notListPrefix_accountKey (s : String) :
    strHasPrefix "users:list:" (accountKey s) = false :=
  notListPrefix_userKey s

/-- A field that conflicts is in particular truthy in the update body. -/
theorem truthy_of_fieldConflict (v : Option String) (stored : String)
    (h : fieldConflict v stored = true) : truthy v = true := by
  cases v with
  | none => simp [fieldConflict] at h
  | some s =>
    simp [fieldConflict] at h
    simp [truthy, h.1]

/-- Closed form of a successful create: 201 confirmation, record appended,
both point caches written, then the `users:list:*` scan-and-delete (which
is the identity when the scan finds nothing). -/
theorem createUser_eq (hash : String → String) (newId : String)
    (store : Store) (cache : Cache) (uN aN eA iN pw : String)
    (hdup : isDup store (mkUser newId uN aN eA iN (hash pw)) = false) :
    createUser hash newId noOutage store cache uN aN eA iN pw
      = (Response.created (msgJson "User created successfully"),
         store ++ [mkUser newId uN aN eA iN (hash pw)],
         cacheDelAll
           (cacheSet (cacheSet cache (accountKey aN)
               (publicUserJson (mkUser newId uN aN eA iN (hash pw))))
             (identityKey iN)
             (publicUserJson (mkUser newId uN aN eA iN (hash pw))))
           (listCacheKeys
             (cacheSet (cacheSet cache (accountKey aN)
                 (publicUserJson (mkUser newId uN aN eA iN (hash pw))))
               (identityKey iN)
               (publicUserJson (mkUser newId uN aN eA iN (hash pw)))))) := by
  unfold createUser
  simp only [saveUser, hdup, Bool.false_eq_true, if_false]
  simp only [cSet, cKeysList, cDelMany, noOutage]
  simp only [Bool.false_eq_true, if_false]
  by_cases hks : 0 < (listCacheKeys
      (cacheSet (cacheSet cache (accountKey aN)
          (publicUserJson (mkUser newId uN aN eA iN (hash pw))))
        (identityKey iN)
        (publicUserJson (mkUser newId uN aN eA iN (hash pw))))).length
  · simp [hks]
  · simp only [hks, if_false]
    have hnil : listCacheKeys
        (cacheSet (cacheSet cache (accountKey aN)
            (publicUserJson (mkUser newId uN aN eA iN (hash pw))))
          (identityKey iN)
          (publicUserJson (mkUser newId uN aN eA iN (hash pw)))) = [] := by
      cases hl : listCacheKeys
          (cacheSet (cacheSet cache (accountKey aN)
              (publicUserJson (mkUser newId uN aN eA iN (hash pw))))
            (identityKey iN)
            (publicUserJson (mkUser newId uN aN eA iN (hash pw)))) with
      | nil => rfl
      | cons a l => rw [hl] at hks; simp at hks
    rw [hnil, cacheDelAll_nil]

/-- The `{users}` payload never carries a `pagination` field. -/
theorem mentionsKey_pagination_usersPayload (us : List User) :
    Json.mentionsKey "pagination" (usersPayload us) = false := by
  have harr : ∀ vs : List User,
      Json.mentionsKeyArr "pagination" (vs.map publicUserJson) = false := by
    intro vs
    induction vs with
    | nil => rfl
    | cons v rest ih =>
      show Json.mentionsKeyArr "pagination"
        (publicUserJson v :: rest.map publicUserJson) = false
      simp only [Json.mentionsKeyArr]
      rw [ih]
      rfl
  simp only [usersPayload, Json.mentionsKey, Json.mentionsKeyFields, harr]
  rfl

/-! ## Claim theorems -/

/-- C1: the claim states that a successful update deletes both point-cache
entries, `user:{accountNumber}` and `user:identity:{identityNumber}`, for
the post-update key values. The update route in fact deletes
`user:{accountNumber}` and `user:{identityNumber}` (line 503 omits the
`identity:` segment, unlike the create and delete routes), so the identity
point-cache entry survives a successful update with stale data, while the
account entry and (as claimed) the list-cache entries behave as stated:
here a record is updated successfully (200 with the updated body), its
post-update identity number is still `I1`, yet `user:identity:I1` still
holds the pre-update record; `user:A1` was deleted and the `users:list:1:10`
entry is untouched. -/
theorem update_misses_identity_point_cache :
    (updateUser noOutage [demoUser] demoCacheL "id1" updOnlyName).1
        = Response.ok (fullUserJson (applyUpdates demoUser updOnlyName))
  ∧ (applyUpdates demoUser updOnlyName).identityNumber = "I1"
  ∧ cacheLookup (updateUser noOutage [demoUser] demoCacheL "id1" updOnlyName).2.2
        (identityKey "I1") = some ⟨publicUserJson demoUser, none⟩
  ∧ cacheLookup (updateUser noOutage [demoUser] demoCacheL "id1" updOnlyName).2.2
        (accountKey "A1") = none
  ∧ cacheLookup (updateUser noOutage [demoUser] demoCacheL "id1" updOnlyName).2.2
        (listKey 1 10) = some ⟨usersPayload [demoUser], some 300⟩ :=
  ⟨rfl, rfl, rfl, rfl, rfl⟩

/-- C2: the claim states that no read path — list, get-by-account,
get-by-identity, or the update response — ever returns the password hash.
The three read routes use `.select('-password')` (or a cache value that was
written password-stripped), but the update route serializes the
`findByIdAndUpdate` result without excluding the field: at the failing
input below the 200 update response body contains the `password` key while
the other paths do not. -/
theorem update_response_contains_password_hash :
    Json.mentionsKey "password"
        (Response.body (updateUser noOutage [demoUser] [] "id1" updOnlyName).1) = true
  ∧ (updateUser noOutage [demoUser] [] "id1" updOnlyName).1.is200 = true
  ∧ Json.mentionsKey "password"
        (Response.body (getUserByAccount noOutage [demoUser] [] "A1").1) = false
  ∧ Json.mentionsKey "password"
        (Response.body (getUserByIdentity noOutage [demoUser] [] "I1").1) = false
  ∧ Json.mentionsKey "password"
        (Response.body (listUsers noOutage [demoUser] [] none none none).1) = false
  ∧ Json.mentionsKey "password"
        (Response.body (listUsers noOutage [demoUser] [] none none (some "0")).1) = false :=
  ⟨rfl, rfl, rfl, rfl, rfl, rfl⟩

/-- C3 counterexample: a request that the store alone can satisfy (the
record is present) fails with a 500 server error when the cache read
fails, instead of being served from the store; with a healthy cache the
same request succeeds. This refutes the claim that a cache failure is
caught and treated as a cache miss. -/
theorem cache_get_failure_fails_satisfiable_request :
    (getUserByAccount getOutage [demoUser] [] "A1").1 = Response.serverError serverErrorJson
  ∧ findByAccount [demoUser] "A1" = some demoUser
  ∧ (getUserByAccount noOutage [demoUser] [] "A1").1 = Response.ok (publicUserJson demoUser) :=
  ⟨rfl, rfl, rfl⟩

/-- C3 (corrected): a failing cache read is not handled as a cache miss;
every cache operation is awaited inside the route's try/catch, so on any
store and cache state a failing cache `get` makes the list,
get-by-account and get-by-identity requests answer a generic 500 server
error, and the store is never consulted. -/
theorem cache_get_failure_yields_server_error (b2 b3 b4 : Bool)
    (store : Store) (cache : Cache) (acct idn : String)
    (qp ql qpag : Option String) :
    (getUserByAccount ⟨true, b2, b3, b4⟩ store cache acct).1
        = Response.serverError serverErrorJson
  ∧ (getUserByIdentity ⟨true, b2, b3, b4⟩ store cache idn).1
        = Response.serverError serverErrorJson
  ∧ (listUsers ⟨true, b2, b3, b4⟩ store cache qp ql qpag).1
        = Response.serverError serverErrorJson := by
  refine ⟨?_, ?_, ?_⟩
  · simp [getUserByAccount, cGet]
  · simp [getUserByIdentity, cGet]
  · by_cases hp : paginateOf qpag = false
    · simp [listUsers, hp, cGet]
    · simp [listUsers, hp, cGet]

/-- C4 counterexample: the record whose `accountNumber` is the string
`identity:42` and whose `identityNumber` is `42` makes the two point-cache
key strings coincide: a get-by-account cache miss for it writes the key
`user:identity:42`, which is exactly the identity slot of the same record.
This refutes the clause that the other alternate key's slot for the same
record is never populated. -/
theorem get_by_account_populates_identity_slot :
    cacheLookup ([] : Cache) (identityKey collidingUser.identityNumber) = none
  ∧ cacheLookup (getUserByAccount noOutage [collidingUser] [] "identity:42").2
        (identityKey collidingUser.identityNumber)
        = some ⟨publicUserJson collidingUser, none⟩
  ∧ (getUserByAccount noOutage [collidingUser] [] "identity:42").1
        = Response.ok (publicUserJson collidingUser) :=
  ⟨rfl, rfl, rfl⟩

/-- C4 (corrected): the get-by-alternate-key routes are read-through as
claimed — a cache hit is returned verbatim with the cache untouched; on a
miss an absent record yields not-found with the cache untouched, and a
present record is returned password-stripped and written, without a TTL,
under the looked-up key only: every other key keeps its previous value.
In particular the other alternate key's slot of the same record is only
written when its key string happens to equal the looked-up key (an
`accountNumber` of the form `identity:` ++ `identityNumber`). -/
theorem get_by_alternate_key_read_through (store : Store) (cache : Cache)
    (acct idn : String) (e : CacheEntry) (u : User) :
    (getUserByAccount noOutage store ((accountKey acct, e) :: cache) acct
       = (Response.ok e.value, (accountKey acct, e) :: cache))
  ∧ (getUserByAccount noOutage (store.filter (fun r => r.accountNumber != acct))
       (cacheErase cache (accountKey acct)) acct
       = (Response.notFound (msgJson "User not found"), cacheErase cache (accountKey acct)))
  ∧ (getUserByAccount noOutage ({u with accountNumber := acct} :: store)
       (cacheErase cache (accountKey acct)) acct
       = (Response.ok (publicUserJson {u with accountNumber := acct}),
          cacheSet (cacheErase cache (accountKey acct)) (accountKey acct)
            (publicUserJson {u with accountNumber := acct})))
  ∧ (∀ k2 : String,
       cacheLookup (cacheSet (cacheErase cache (accountKey acct)) (accountKey acct)
           (publicUserJson {u with accountNumber := acct})) k2
         = if k2 = accountKey acct
           then some ⟨publicUserJson {u with accountNumber := acct}, none⟩
           else cacheLookup (cacheErase cache (accountKey acct)) k2)
  ∧ (getUserByIdentity noOutage store ((identityKey idn, e) :: cache) idn
       = (Response.ok e.value, (identityKey idn, e) :: cache))
  ∧ (getUserByIdentity noOutage (store.filter (fun r => r.identityNumber != idn))
       (cacheErase cache (identityKey idn)) idn
       = (Response.notFound (msgJson "User not found"), cacheErase cache (identityKey idn)))
  ∧ (getUserByIdentity noOutage ({u with identityNumber := idn} :: store)
       (cacheErase cache (identityKey idn)) idn
       = (Response.ok (publicUserJson {u with identityNumber := idn}),
          cacheSet (cacheErase cache (identityKey idn)) (identityKey idn)
            (publicUserJson {u with identityNumber := idn})))
  ∧ (∀ k2 : String,
       cacheLookup (cacheSet (cacheErase cache (identityKey idn)) (identityKey idn)
           (publicUserJson {u with identityNumber := idn})) k2
         = if k2 = identityKey idn
           then some ⟨publicUserJson {u with identityNumber := idn}, none⟩
           else cacheLookup (cacheErase cache (identityKey idn)) k2) := by
  refine ⟨?_, ?_, ?_, ?_, ?_, ?_, ?_, ?_⟩
  · simp [getUserByAccount, cGet, noOutage, cacheLookup]
  · simp [getUserByAccount, cGet, noOutage, cacheLookup_erase,
      findByAccount_filter_ne]
  · simp [getUserByAccount, cGet, noOutage, cacheLookup_erase,
      findByAccount, List.find?_cons, cSet]
  · intro k2
    exact cacheLookup_set _ _ _ _
  · simp [getUserByIdentity, cGet, noOutage, cacheLookup]
  · simp [getUserByIdentity, cGet, noOutage, cacheLookup_erase,
      findByIdentity_filter_ne]
  · simp [getUserByIdentity, cGet, noOutage, cacheLookup_erase,
      findByIdentity, List.find?_cons, cSet]
  · intro k2
    exact cacheLookup_set _ _ _ _

/-- C5: a successful create (no duplicate-key violation) answers 201 with
the confirmation message, not the record body; it persists the record;
both point-cache entries, `user:{accountNumber}` and
`user:identity:{identityNumber}`, then hold the password-stripped record
with no TTL; and no key matched by the `users:list:*` glob remains in the
cache. -/
theorem create_populates_point_caches_and_invalidates_lists
    (hash : String → String) (newId : String) (store : Store) (cache : Cache)
    (uN aN eA iN pw : String)
    (hdup : isDup store (mkUser newId uN aN eA iN (hash pw)) = false) :
    (createUser hash newId noOutage store cache uN aN eA iN pw).1
        = Response.created (msgJson "User created successfully")
  ∧ (createUser hash newId noOutage store cache uN aN eA iN pw).2.1
        = store ++ [mkUser newId uN aN eA iN (hash pw)]
  ∧ cacheLookup (createUser hash newId noOutage store cache uN aN eA iN pw).2.2
        (accountKey aN)
        = some ⟨publicUserJson (mkUser newId uN aN eA iN (hash pw)), none⟩
  ∧ cacheLookup (createUser hash newId noOutage store cache uN aN eA iN pw).2.2
        (identityKey iN)
        = some ⟨publicUserJson (mkUser newId uN aN eA iN (hash pw)), none⟩
  ∧ listCacheKeys (createUser hash newId noOutage store cache uN aN eA iN pw).2.2 = [] := by
  simp only [createUser_eq hash newId store cache uN aN eA iN pw hdup]
  refine ⟨trivial, trivial, ?_, ?_, ?_⟩
  · rw [cacheLookup_delAll_listKeys _ _ _ (notListPrefix_accountKey aN)]
    rw [cacheLookup_set]
    by_cases hc : accountKey aN = identityKey iN
    · rw [if_pos hc]
    · rw [if_neg hc, cacheLookup_set, if_pos rfl]
  · rw [cacheLookup_delAll_listKeys _ _ _ (notListPrefix_identityKey iN)]
    rw [cacheLookup_set, if_pos rfl]
  · exact listCacheKeys_delAll_self _

/-- C5 witness: a concrete create on the empty store answers the 201
confirmation. -/
theorem create_populates_point_caches_and_invalidates_lists_witness :
    (createUser (fun p => "h" ++ p) "id9" noOutage [] [] "N" "A" "E" "I" "P").1
      = Response.created (msgJson "User created successfully") :=
  (create_populates_point_caches_and_invalidates_lists
    (fun p => "h" ++ p) "id9" [] [] "N" "A" "E" "I" "P" rfl).1

/-- C6: an update whose body carries an accountNumber, emailAddress or
identityNumber value stored on a different record (different id) is
rejected with the 400 conflict message naming all three fields generically,
and neither the store nor the cache changes; the target record — in
particular its accountNumber — keeps its prior value. -/
theorem update_conflict_rejected_with_400_store_unchanged
    (store : Store) (cache : Cache) (uid : String) (up : Updates)
    (t r : User)
    (hfind : findById store uid = some t)
    (hr : r ∈ store) (hne : r.id ≠ uid)
    (hconf : fieldConflict up.accountNumber r.accountNumber = true
           ∨ fieldConflict up.emailAddress r.emailAddress = true
           ∨ fieldConflict up.identityNumber r.identityNumber = true) :
    (updateUser noOutage store cache uid up).1
        = Response.badRequest (msgJson "Account number, email, or identity number already in use")
  ∧ (updateUser noOutage store cache uid up).2.1 = store
  ∧ (updateUser noOutage store cache uid up).2.2 = cache
  ∧ findById (updateUser noOutage store cache uid up).2.1 uid = some t := by
  have htruthy : (truthy up.accountNumber || truthy up.emailAddress
      || truthy up.identityNumber) = true := by
    rcases hconf with h | h | h
    · simp [truthy_of_fieldConflict _ _ h]
    · simp [truthy_of_fieldConflict _ _ h]
    · simp [truthy_of_fieldConflict _ _ h]
  have hor : conflictOr store uid up = true := by
    apply List.any_eq_true.mpr
    refine ⟨r, hr, ?_⟩
    have hid : (r.id != uid) = true := by simpa using hne
    rcases hconf with h | h | h <;> simp [hid, h]
  unfold updateUser
  rw [hfind]
  simp [htruthy, hor]
  exact hfind

/-- C6 witness: updating `collidingUser` (id2) with the accountNumber `A1`
already owned by `demoUser` (id1) is rejected with the conflict message. -/
theorem update_conflict_rejected_with_400_store_unchanged_witness :
    (updateUser noOutage [demoUser, collidingUser] [] "id2"
        ⟨none, some "A1", none, none⟩).1
      = Response.badRequest (msgJson "Account number, email, or identity number already in use") :=
  (update_conflict_rejected_with_400_store_unchanged
    [demoUser, collidingUser] [] "id2" ⟨none, some "A1", none, none⟩
    collidingUser demoUser rfl (by decide) (by decide) (Or.inl rfl)).1

/-- C7 counterexample: the request `page=-5` (limit absent, so 10) has
pagination enabled and parsed page -5; the claim then demands a 200 with a
pagination object whose currentPage is -5, but the store rejects the
negative skip (-60) and the route answers a 500 server error. -/
theorem list_negative_page_yields_server_error :
    (listUsers noOutage [demoUser] [] (some "-5") none none).1
        = Response.serverError serverErrorJson
  ∧ pageOf (some "-5") = -5
  ∧ limitOf none = 10
  ∧ paginateOf none = true :=
  ⟨rfl, rfl, rfl, rfl⟩

/-- C7 (corrected): on a list request with `paginate=0` the response
(computed on a cache miss) is the `{users}` payload with no `pagination`
field; on any other paginate value, provided the parsed page and limit give
a nonnegative `skip = (page-1)*limit` and a positive limit — as for every
well-formed request (page and limit at least 1) and for the defaults — the
miss response carries the pagination object with `currentPage` the
requested page, `itemsPerPage` the parsed limit, `totalItems` the store's
record count and `totalPages = Math.ceil(total / limit)`, the slice being
`skip = (page-1)*limit`, `take = limit`; in both modes the computed payload
is written under the list key with a 300-second TTL. (A negative skip makes
the store reject the query and the route answer 500 instead.) -/
theorem list_pagination_spec (store : Store) (cache : Cache)
    (qp ql qpag : Option String)
    (hpag : jsParseInt qpag ≠ some 0)
    (hskip : 0 ≤ (pageOf qp - 1) * limitOf ql)
    (hlim : 0 < limitOf ql) :
    (listUsers noOutage store (cacheErase cache allKey) qp ql (some "0")
       = (Response.ok (usersPayload store.reverse),
          cacheSetEx (cacheErase cache allKey) allKey 300 (usersPayload store.reverse)))
  ∧ Json.mentionsKey "pagination" (usersPayload store.reverse) = false
  ∧ (listUsers noOutage store (cacheErase cache (listKey (pageOf qp) (limitOf ql))) qp ql qpag
       = (Response.ok
            (pagedPayload
              ((store.reverse.drop ((pageOf qp - 1) * limitOf ql).toNat).take
                (limitOf ql).toNat)
              (pageOf qp) (ceilDivJs store.length (limitOf ql))
              store.length (limitOf ql)),
          cacheSetEx (cacheErase cache (listKey (pageOf qp) (limitOf ql)))
            (listKey (pageOf qp) (limitOf ql)) 300
            (pagedPayload
              ((store.reverse.drop ((pageOf qp - 1) * limitOf ql).toNat).take
                (limitOf ql).toNat)
              (pageOf qp) (ceilDivJs store.length (limitOf ql))
              store.length (limitOf ql)))) := by
  refine ⟨?_, mentionsKey_pagination_usersPayload _, ?_⟩
  · have hp0 : paginateOf (some "0") = false := rfl
    simp only [listUsers, hp0, if_pos, cGet, noOutage, Bool.false_eq_true, if_false,
      cacheLookup_erase, if_pos rfl, cSetEx]
  · have hp : paginateOf qpag = true := by
      simp only [paginateOf, bne_iff_ne, ne_eq]
      simpa using hpag
    have hnn : ¬ ((pageOf qp - 1) * limitOf ql < 0) := not_lt.mpr hskip
    have hne : ¬ (limitOf ql = 0) := by omega
    have habs : (limitOf ql).natAbs = (limitOf ql).toNat := by omega
    simp only [listUsers, hp, Bool.true_eq_false, if_false, cGet, noOutage,
      Bool.false_eq_true, cacheLookup_erase, if_pos rfl, findPage,
      if_neg hnn, if_neg hne, habs, cSetEx]
    simp

/-- C7 witness: the default request (no paginate, page or limit parameter,
so page 1, limit 10, skip 0) on the store with one record. -/
theorem list_pagination_spec_witness :
    listUsers noOutage [demoUser] (cacheErase [] (listKey (pageOf none) (limitOf none)))
        none none none
      = (Response.ok
           (pagedPayload
             (([demoUser].reverse.drop ((pageOf none - 1) * limitOf none).toNat).take
               (limitOf none).toNat)
             (pageOf none) (ceilDivJs ([demoUser] : Store).length (limitOf none))
             ([demoUser] : Store).length (limitOf none)),
         cacheSetEx (cacheErase [] (listKey (pageOf none) (limitOf none)))
           (listKey (pageOf none) (limitOf none)) 300
           (pagedPayload
             (([demoUser].reverse.drop ((pageOf none - 1) * limitOf none).toNat).take
               (limitOf none).toNat)
             (pageOf none) (ceilDivJs ([demoUser] : Store).length (limitOf none))
             ([demoUser] : Store).length (limitOf none))) :=
  (list_pagination_spec [demoUser] [] none none none (by decide) (by decide)
    (by decide)).2.2

/-- C8: an update whose body carries only `userName` (none of the three
unique fields present) never reaches the uniqueness probe, so it can never
be answered with the 400 conflict message: it is 404 for an unknown id and
200 otherwise. -/
theorem update_only_userName_never_conflicts (store : Store) (cache : Cache)
    (uid : String) (uN : Option String) :
    (updateUser noOutage store cache uid ⟨uN, none, none, none⟩).1
      ≠ Response.badRequest (msgJson "Account number, email, or identity number already in use") := by
  unfold updateUser
  cases hfind : findById store uid with
  | none => simp
  | some user => simp [truthy, cDel, noOutage]

/-- C9: the list route's limit (the `totalPages` divisor) falls back to the
default 10 whenever the limit query parameter is absent, non-numeric, or
parses to 0, and it is never 0 for any parameter value. -/
theorem list_limit_fallback_nonzero (ql : Option String)
    (h : ql = none ∨ jsParseInt ql = none ∨ jsParseInt ql = some 0) :
    limitOf ql = 10 ∧ ∀ q2 : Option String, limitOf q2 ≠ 0 := by
  constructor
  · rcases h with h | h | h
    · rw [h]; rfl
    · simp [limitOf, h, jsOrDefault]
    · simp [limitOf, h, jsOrDefault]
  · intro q2
    unfold limitOf jsOrDefault
    cases jsParseInt q2 with
    | none => decide
    | some n =>
      by_cases hn : n = 0
      · simp [hn]
      · simp [hn]

/-- C9 witness: a non-numeric limit parameter falls back to 10. -/
theorem list_limit_fallback_nonzero_witness :
    limitOf (some "abc") = 10 ∧ ∀ q2 : Option String, limitOf q2 ≠ 0 :=
  list_limit_fallback_nonzero (some "abc") (Or.inr (Or.inl rfl))

/-- C10: the persisted email of a create is the lower-cased trimmed form of
the submitted email (the schema setters), so after a successful create, a
second create whose submitted email has the same lower-casing - in
particular one differing only in letter case - hits the email unique index:
it is rejected with the duplicate-entry message and leaves the store
unchanged, whatever its other field values are. -/
theorem create_email_case_insensitive_collision
    (hash : String → String) (id1 id2 : String)
    (uN1 aN1 eA1 iN1 pw1 uN2 aN2 eA2 iN2 pw2 : String)
    (store : Store) (cache cache2 : Cache)
    (hdup : isDup store (mkUser id1 uN1 aN1 eA1 iN1 (hash pw1)) = false)
    (hcase : jsToLowerStr eA1 = jsToLowerStr eA2) :
    (mkUser id1 uN1 aN1 eA1 iN1 (hash pw1)).emailAddress = normalizeEmail eA1
  ∧ (createUser hash id1 noOutage store cache uN1 aN1 eA1 iN1 pw1).2.1
      = store ++ [mkUser id1 uN1 aN1 eA1 iN1 (hash pw1)]
  ∧ (createUser hash id2 noOutage (store ++ [mkUser id1 uN1 aN1 eA1 iN1 (hash pw1)])
        cache2 uN2 aN2 eA2 iN2 pw2).1
      = Response.badRequest (msgJson "Duplicate entry found")
  ∧ (createUser hash id2 noOutage (store ++ [mkUser id1 uN1 aN1 eA1 iN1 (hash pw1)])
        cache2 uN2 aN2 eA2 iN2 pw2).2.1
      = store ++ [mkUser id1 uN1 aN1 eA1 iN1 (hash pw1)] := by
  have hdup2 : isDup (store ++ [mkUser id1 uN1 aN1 eA1 iN1 (hash pw1)])
      (mkUser id2 uN2 aN2 eA2 iN2 (hash pw2)) = true := by
    have he : (mkUser id1 uN1 aN1 eA1 iN1 (hash pw1)).emailAddress
        = (mkUser id2 uN2 aN2 eA2 iN2 (hash pw2)).emailAddress :=
      normalizeEmail_of_toLower_eq hcase
    simp [isDup, List.any_append, List.any_cons, he]
  refine ⟨rfl, (createUser_eq hash id1 store cache uN1 aN1 eA1 iN1 pw1 hdup).symm ▸ rfl,
    ?_, ?_⟩
  · unfold createUser
    simp [saveUser, hdup2]
  · unfold createUser
    simp [saveUser, hdup2]

/-- C10 witness: `Alice@X.com` then `alice@x.COM` - the second create is a
duplicate. -/
theorem create_email_case_insensitive_collision_witness :
    (createUser (fun p => "h" ++ p) "idB" noOutage
        ([] ++ [mkUser "idA" "N1" "A1" "Alice@X.com" "I1" ((fun p => "h" ++ p) "p1")])
        [] "N2" "A2" "alice@x.COM" "I2" "p2").1
      = Response.badRequest (msgJson "Duplicate entry found") :=
  (create_email_case_insensitive_collision (fun p => "h" ++ p) "idA" "idB"
    "N1" "A1" "Alice@X.com" "I1" "p1" "N2" "A2" "alice@x.COM" "I2" "p2"
    [] [] [] rfl rfl).2.2.1
